import Mathlib

/-
Shallow embedding of the usage-metering service.

Credits (Python `Decimal`) are modelled as exact rationals; all constants in
the source are multiples of 0.05, so `Decimal` arithmetic is exact and ℚ is a
faithful model.  `Decimal.quantize(Decimal("0.01"), rounding=ROUND_HALF_UP)`
is `quantize2` below (round to hundredths, ties away from zero).

Message text (Python `str`) is a `List Char`.  The character predicates
`str.isalpha`, `str.isalnum`, `str.lower` and whitespace splitting are
modelled at ASCII granularity (every text appearing in the repository and in
the concrete vectors is ASCII, and the universally quantified properties
proved below do not depend on the classification of any individual
character).
-/

/-- Python `Decimal.quantize(Decimal("0.01"), rounding=ROUND_HALF_UP)`:
round to 2 decimal places, ties away from zero. -/
def quantize2 (q : ℚ) : ℚ :=
  if 0 ≤ q then ((⌊q * 100 + 1/2⌋ : ℤ) : ℚ) / 100
  else -(((⌊(-q) * 100 + 1/2⌋ : ℤ) : ℚ) / 100)

/-- Python `ch.isalpha()` (ASCII fragment). -/
def pyIsAlpha (c : Char) : Bool := c.isAlpha

/-- Python `ch.isalnum()` (ASCII fragment). -/
def pyIsAlnum (c : Char) : Bool := c.isAlpha || c.isDigit

/-- Python `ch.lower()` (ASCII fragment). -/
def pyToLower (c : Char) : Char := c.toLower

/-- Accumulator-based splitter behind `pySplit`. -/
def splitAux : List Char → List Char → List (List Char)
  | [], acc => if acc.isEmpty then [] else [acc.reverse]
  | c :: cs, acc =>
    if c.isWhitespace then
      if acc.isEmpty then splitAux cs [] else acc.reverse :: splitAux cs []
    else splitAux cs (c :: acc)

/-- Python `str.split()` with no argument: split on whitespace runs,
dropping empty pieces. -/
def pySplit (s : List Char) : List (List Char) := splitAux s []

/-- Every third element: the slice `l[0::3]`.  Applied after `drop 2` it
gives Python `text[2::3]`. -/
def every3 : List Char → List Char
  | [] => []
  | [c] => [c]
  | [c, _] => [c]
  | c :: _ :: _ :: rest => c :: every3 rest

/-- `src/src/models/domain.py` `Report`. -/
structure Report where
  id : Int
  name : String
  credit_cost : ℚ
  deriving DecidableEq, Repr

/-- `src/src/models/domain.py` `Message`.  The timestamp is kept as its
ISO-8601 rendering, which is all the service ever reads from it. -/
structure Message where
  id : Int
  text : List Char
  timestamp : String
  report_id : Option Int
  deriving DecidableEq, Repr

/-- `BaseCostHandler.BASE_COST`. -/
def BASE_COST : ℚ := 1

/-- `BaseCostHandler.process`. -/
def baseCostProcess (_ : Message) (credits : ℚ) : ℚ := credits + BASE_COST

/-- `CharacterCountHandler.CHARACTER_CREDIT`. -/
def CHARACTER_CREDIT : ℚ := 5/100

/-- `CharacterCountHandler.process`. -/
def characterCountProcess (m : Message) (credits : ℚ) : ℚ :=
  credits + CHARACTER_CREDIT * (m.text.length : ℚ)

/-- The token filter shared by `WordLengthHandler.process` and
`UniqueWordBonusHandler.process`: split on whitespace, keep tokens with at
least one alphabetic character. -/
def wordTokens (t : List Char) : List (List Char) :=
  (pySplit t).filter (fun w => w.any pyIsAlpha)

/-- `WordLengthHandler.SHORT_WORD_CREDIT`. -/
def SHORT_WORD_CREDIT : ℚ := 1/10

/-- `WordLengthHandler.MEDIUM_WORD_CREDIT`. -/
def MEDIUM_WORD_CREDIT : ℚ := 2/10

/-- `WordLengthHandler.LONG_WORD_CREDIT`. -/
def LONG_WORD_CREDIT : ℚ := 3/10

/-- Per-token increment of `WordLengthHandler.process`. -/
def wordCredit (w : List Char) : ℚ :=
  if w.length ≤ 3 then SHORT_WORD_CREDIT
  else if w.length ≤ 7 then MEDIUM_WORD_CREDIT
  else LONG_WORD_CREDIT

/-- `WordLengthHandler.process`. -/
def wordLengthProcess (m : Message) (credits : ℚ) : ℚ :=
  (wordTokens m.text).foldl (fun acc w => acc + wordCredit w) credits

/-- `ThirdVowelsHandler.VOWEL_CREDIT`. -/
def VOWEL_CREDIT : ℚ := 3/10

/-- Membership in `ThirdVowelsHandler.VOWELS`. -/
def isVowel (c : Char) : Bool :=
  c = 'a' || c = 'e' || c = 'i' || c = 'o' || c = 'u' ||
  c = 'A' || c = 'E' || c = 'I' || c = 'O' || c = 'U'

/-- `ThirdVowelsHandler.process` (`text[2::3]`, count vowels). -/
def thirdVowelsProcess (m : Message) (credits : ℚ) : ℚ :=
  credits + VOWEL_CREDIT * (((every3 (m.text.drop 2)).filter isVowel).length : ℚ)

/-- `LengthPenaltyHandler.LENGTH_PENALTY`. -/
def LENGTH_PENALTY : ℚ := 5

/-- `LengthPenaltyHandler.process` (threshold 100, strict). -/
def lengthPenaltyProcess (m : Message) (credits : ℚ) : ℚ :=
  if m.text.length > 100 then credits + LENGTH_PENALTY else credits

/-- `UniqueWordBonusHandler.UNIQUE_WORD_DISCOUNT`. -/
def UNIQUE_WORD_DISCOUNT : ℚ := 2

/-- `UniqueWordBonusHandler.MINIMUM_CREDITS`. -/
def MINIMUM_CREDITS : ℚ := 1

/-- `UniqueWordBonusHandler.process`: subtract the discount when the token
list has no repeats (`len(words) == len(set(words))`), then clamp to the
floor with `max`. -/
def uniqueWordBonusProcess (m : Message) (credits : ℚ) : ℚ :=
  let words := wordTokens m.text
  let credits' :=
    if words.length = words.dedup.length then credits - UNIQUE_WORD_DISCOUNT
    else credits
  max MINIMUM_CREDITS credits'

/-- The normalisation inside `PalindromeHandler._is_palindrome`: keep
alphanumerics, lower-case them. -/
def cleanedText (t : List Char) : List Char :=
  (t.filter pyIsAlnum).map pyToLower

/-- `PalindromeHandler._is_palindrome`. -/
def isPalindrome (t : List Char) : Bool :=
  cleanedText t == (cleanedText t).reverse

/-- `PalindromeHandler.PALINDROME_MULTIPLIER`. -/
def PALINDROME_MULTIPLIER : ℚ := 2

/-- `PalindromeHandler.process`. -/
def palindromeProcess (m : Message) (credits : ℚ) : ℚ :=
  if isPalindrome m.text then credits * PALINDROME_MULTIPLIER else credits

/-- The handler chain wired up in `Calculator.__init__`, in source order. -/
def handlerChain : List (Message → ℚ → ℚ) :=
  [baseCostProcess, characterCountProcess, wordLengthProcess,
   thirdVowelsProcess, lengthPenaltyProcess, uniqueWordBonusProcess,
   palindromeProcess]

/-- `Handler.handle`: run each `process` and pass the result on. -/
def handleChain : List (Message → ℚ → ℚ) → Message → ℚ → ℚ
  | [], _, credits => credits
  | p :: ps, m, credits => handleChain ps m (p m credits)

/-- `Calculator.calculate`: report override short-circuits the chain,
otherwise fold the chain from `Decimal("0.0")`; quantize the result. -/
def calculate (m : Message) (report : Option Report) : ℚ :=
  match report with
  | some r => quantize2 r.credit_cost
  | none => quantize2 (handleChain handlerChain m 0)

/-
Service layer (`src/src/services/usage.py` and its collaborators).

`client.reports.get(report_id)` either returns a `Report`, raises an
`APIError` wrapping the underlying `httpx` error (which carries an attached
HTTP response, or none for connection-level failures), or raises a
`ReportParsingError` (which is not an `APIError` and so is never caught by
`fetch_reports`).  A report source is a function from requested id to one of
those outcomes; exceptions escaping the service are the `PyErr` type, where
`attributeError` models the `AttributeError` raised by evaluating
`error.original_error.response` when the wrapped error has no response.
-/

/-- The `original_error` attached to an `APIError`: at most the status code
of the HTTP response it carries, `none` when it has no response attribute. -/
structure OrigError where
  response : Option Nat
  deriving DecidableEq, Repr

/-- Outcome of one `client.reports.get` call. -/
inductive GetOutcome where
  | ok (r : Report)
  | apiError (e : OrigError)
  | parseError
  deriving DecidableEq, Repr

/-- Exceptions that can escape the usage service. -/
inductive PyErr where
  | apiError (e : OrigError)
  | parseError
  | attributeError
  deriving DecidableEq, Repr

/-- The inner `fetch_report` closure of `UsageService.fetch_reports`:
catch `APIError`, read `original_error.response.status_code`, tolerate 404
as `None`, re-raise anything else; reading `.response` on an error without
a response raises `AttributeError`. -/
def fetchOne (src : Int → GetOutcome) (rid : Int) : Except PyErr (Option Report) :=
  match src rid with
  | .ok r => .ok (some r)
  | .apiError e =>
    match e.response with
    | none => .error .attributeError
    | some sc => if sc = 404 then .ok none else .error (.apiError e)
  | .parseError => .error .parseError

/-- `asyncio.gather(..., return_exceptions=False)` over the per-id fetches,
determinised to list order: all succeed, or the aggregation raises a failing
fetch's exception. -/
def gatherFetch (src : Int → GetOutcome) : List Int → Except PyErr (List (Option Report))
  | [] => .ok []
  | rid :: rest =>
    match fetchOne src rid with
    | .error e => .error e
    | .ok r =>
      match gatherFetch src rest with
      | .error e => .error e
      | .ok rs => .ok (r :: rs)

/-- Python `dict.get` on a dict built by insertion in list order: the last
binding of a key wins. -/
def dictGet (d : List (Int × Report)) (k : Int) : Option Report :=
  (d.reverse.find? (fun p => p.1 == k)).map Prod.snd

/-- `report_map.get(message.report_id)`: a `None` report reference misses,
an id looks up the dict. -/
def lookupReport (d : List (Int × Report)) : Option Int → Option Report
  | none => none
  | some k => dictGet d k

/-- `UsageService.fetch_reports`: early-return `{}` on the empty id list,
otherwise gather all fetches (the first component records the ids passed to
`client.reports.get`, one call per list element) and build
`{report.id: report}` from the non-`None` results. -/
def fetch_reports (src : Int → GetOutcome) (report_ids : List Int) :
    List Int × Except PyErr (List (Int × Report)) :=
  if report_ids.isEmpty then ([], .ok [])
  else
    (report_ids,
      (gatherFetch src report_ids).map
        (fun reports => (reports.filterMap id).map (fun r => (r.id, r))))

/-- `src/src/models/api.py` `UsageEntry`. -/
structure UsageEntry where
  message_id : Int
  timestamp : String
  report_name : Option String
  credits_used : ℚ
  deriving DecidableEq, Repr

/-- `UsageService.create_usage_entry`. -/
def create_usage_entry (m : Message) (report : Option Report) : UsageEntry :=
  { message_id := m.id
    timestamp := m.timestamp
    report_name := report.map Report.name
    credits_used := quantize2 (calculate m report) }

/-- `UsageService.get_current_period_usage`, after the messages have been
fetched: collect the referenced report ids, resolve them, and emit one entry
per message in order.  The first component is the trace of report ids passed
to `client.reports.get`. -/
def build_usage (src : Int → GetOutcome) (messages : List Message) :
    List Int × Except PyErr (List UsageEntry) :=
  let report_ids := messages.filterMap Message.report_id
  let fr := fetch_reports src report_ids
  (fr.1,
    fr.2.map (fun rmap =>
      messages.map (fun m =>
        create_usage_entry m (lookupReport rmap m.report_id))))

/-- The value of a non-fatal fetch (used only to state lemmas about
`gatherFetch`): the resolved report, or `none` for a tolerated 404 or a
fatal fetch. -/
def okValue (src : Int → GetOutcome) (rid : Int) : Option Report :=
  match fetchOne src rid with
  | .ok v => v
  | .error _ => none

/-- The mapping `fetch_reports` produces on a run with no fatal fetch. -/
def resolvedMap (src : Int → GetOutcome) (ids : List Int) : List (Int × Report) :=
  ((ids.map (okValue src)).filterMap id).map (fun r => (r.id, r))

/-- Fixture: the empty-text message. -/
def emptyMsg : Message := ⟨1, [], "t", none⟩

/-- Fixture: first literal vector. -/
def vec1 : Message := ⟨1, "What rental amount is specified?".toList, "t", none⟩

/-- Fixture: second literal vector. -/
def vec2 : Message := ⟨2, "A man a plan a canal Panama".toList, "t", none⟩

/-- Fixture: third literal vector, 101 repeated characters. -/
def vec3 : Message := ⟨3, List.replicate 101 'x', "t", none⟩

/-- Fixture: fourth literal vector. -/
def vec4 : Message := ⟨4, "The quick brown fox jumps over lazy dog".toList, "t", none⟩

/-- Fixture: a source that resolves every id to the same report. -/
def srcDup : Int → GetOutcome := fun _ => GetOutcome.ok ⟨1, "R", 10⟩

/-- Fixture: two messages referencing the same report id. -/
def msgsDup : List Message := [⟨1, [], "t", some 1⟩, ⟨2, [], "t", some 1⟩]

/-- Fixture: a source whose failures carry no HTTP response (connection
errors). -/
def srcConn : Int → GetOutcome := fun _ => GetOutcome.apiError ⟨none⟩

/-- Fixture: one message referencing report id 7. -/
def msgsConn : List Message := [⟨1, [], "t", some 7⟩]

/-- Fixture: id 1 resolves, every other id is a 404. -/
def srcNf : Int → GetOutcome := fun i =>
  if i = 1 then GetOutcome.ok ⟨1, "R1", 10⟩ else GetOutcome.apiError ⟨some 404⟩

/-- Fixture: messages referencing ids 1 (resolves) and 2 (404). -/
def msgsNf : List Message := [⟨1, [], "t", some 1⟩, ⟨2, [], "t", some 2⟩]

/-- Fixture: a source that always resolves to report id 3. -/
def srcOrd : Int → GetOutcome := fun _ => GetOutcome.ok ⟨3, "R", 10⟩

/-- Fixture: a single message referencing report id 3. -/
def msgsOrd : List Message := [⟨5, [], "ts", some 3⟩]

/-- Fixture: the usage list the aggregator produces for `msgsOrd`. -/
def entsOrd : List UsageEntry :=
  [⟨5, "ts", some "R", quantize2 (calculate ⟨5, [], "ts", some 3⟩ (some ⟨3, "R", 10⟩))⟩]

/-- Fixture: a source with a response-less failure on every id (for the
classification theorem). -/
def srcNoResp : Int → GetOutcome := fun _ => GetOutcome.apiError ⟨none⟩

/-- Fixture: requesting id 5 returns a report whose own id is 99. -/
def srcMis : Int → GetOutcome := fun i =>
  if i = 5 then GetOutcome.ok ⟨99, "Other", 7⟩ else GetOutcome.apiError ⟨some 404⟩

/-- Fixture: a single message referencing the mismatched id 5. -/
def msgsMis : List Message := [⟨1, [], "t", some 5⟩]

/-- Fixture: the entry produced for `msgsMis` (rule-chain fallback). -/
def entsMis : List UsageEntry :=
  [⟨1, "t", none, quantize2 (calculate ⟨1, [], "t", some 5⟩ none)⟩]


/-- Every quantized value is an integer number of hundredths. -/
lemma quantize2_eq_int_div (q : ℚ) : ∃ n : ℤ, quantize2 q = (n : ℚ) / 100 := by
  unfold quantize2
  split
  · exact ⟨⌊q * 100 + 1/2⌋, rfl⟩
  · exact ⟨-⌊-q * 100 + 1/2⌋, by push_cast; ring⟩

/-- Quantizing an integer number of hundredths is the identity. -/
lemma quantize2_int_div (n : ℤ) : quantize2 ((n : ℚ) / 100) = (n : ℚ) / 100 := by
  unfold quantize2
  rcases le_or_lt 0 n with hn | hn
  · have h0 : (0:ℚ) ≤ (n:ℚ)/100 := div_nonneg (by exact_mod_cast hn) (by norm_num)
    rw [if_pos h0, div_mul_cancel₀ _ (by norm_num : (100:ℚ) ≠ 0), Int.floor_int_add]
    norm_num
  · have h0 : ¬ (0:ℚ) ≤ (n:ℚ)/100 := by
      rw [not_le]
      exact div_neg_of_neg_of_pos (by exact_mod_cast hn) (by norm_num)
    rw [if_neg h0]
    have hc : ((n:ℚ)/100) * 100 = (n:ℚ) := div_mul_cancel₀ _ (by norm_num)
    have h1 : -((n:ℚ)/100) * 100 + 1/2 = ((-n : ℤ) : ℚ) + 1/2 := by
      push_cast
      rw [neg_mul, hc]
    rw [h1, Int.floor_int_add]
    have h2 : ⌊(1/2 : ℚ)⌋ = 0 := by norm_num
    rw [h2]
    push_cast
    ring

/-- `quantize2` is idempotent. -/
lemma quantize2_idem (q : ℚ) : quantize2 (quantize2 q) = quantize2 q := by
  obtain ⟨n, hn⟩ := quantize2_eq_int_div q
  rw [hn, quantize2_int_div]

/-- `calculate` already quantizes, so the extra `quantize` in
`create_usage_entry` is the identity on its output. -/
lemma calculate_fix (m : Message) (r : Option Report) :
    quantize2 (calculate m r) = calculate m r := by
  unfold calculate
  cases r <;> simp [quantize2_idem]

/-- `quantize2` preserves the floor of 1. -/
lemma quantize2_ge_one {q : ℚ} (h : 1 ≤ q) : 1 ≤ quantize2 q := by
  unfold quantize2
  rw [if_pos (le_trans zero_le_one h)]
  rw [le_div_iff₀ (by norm_num : (0:ℚ) < 100), one_mul]
  have h100 : (100 : ℤ) ≤ ⌊q * 100 + 1/2⌋ := by
    rw [Int.le_floor]
    push_cast
    linarith
  exact_mod_cast h100

/-- The uniqueness-bonus rule clamps to the floor of 1. -/
lemma uniqueWordBonus_ge_one (m : Message) (c : ℚ) :
    1 ≤ uniqueWordBonusProcess m c := by
  unfold uniqueWordBonusProcess
  exact le_max_left _ _

/-- The palindrome rule keeps the total at or above 1. -/
lemma palindromeProcess_ge_one (m : Message) {c : ℚ} (h : 1 ≤ c) :
    1 ≤ palindromeProcess m c := by
  unfold palindromeProcess PALINDROME_MULTIPLIER
  split
  · nlinarith
  · exact h

/-- C2: on the empty text with no report the running total stays at 1.00
through the base, character, word-length, vowel and length-penalty rules;
the uniqueness bonus applies (zero tokens count as all-distinct), its
subtraction of 2.00 would give −1.00 but the clamp floors the total at 1.00;
the empty normalized string is a palindrome so the total doubles, and
`calculate` returns exactly 2.00. -/
theorem calc_empty_text_floor_then_double :
    baseCostProcess emptyMsg 0 = 1 ∧
    characterCountProcess emptyMsg 1 = 1 ∧
    wordLengthProcess emptyMsg 1 = 1 ∧
    thirdVowelsProcess emptyMsg 1 = 1 ∧
    lengthPenaltyProcess emptyMsg 1 = 1 ∧
    (wordTokens emptyMsg.text).length = (wordTokens emptyMsg.text).dedup.length ∧
    (1 : ℚ) - UNIQUE_WORD_DISCOUNT = -1 ∧
    uniqueWordBonusProcess emptyMsg 1 = 1 ∧
    isPalindrome emptyMsg.text = true ∧
    palindromeProcess emptyMsg 1 = 2 ∧
    calculate emptyMsg none = 2 := by
  refine ⟨?_, ?_, ?_, ?_, ?_, by decide, ?_, ?_, by decide, ?_, ?_⟩ <;>
    norm_num +decide [calculate, handleChain, handlerChain, baseCostProcess,
      characterCountProcess, wordLengthProcess, thirdVowelsProcess,
      lengthPenaltyProcess, uniqueWordBonusProcess, palindromeProcess,
      wordTokens, pySplit, splitAux, every3, isVowel, isPalindrome,
      cleanedText, quantize2, BASE_COST, CHARACTER_CREDIT, SHORT_WORD_CREDIT,
      MEDIUM_WORD_CREDIT, LONG_WORD_CREDIT, VOWEL_CREDIT, LENGTH_PENALTY,
      UNIQUE_WORD_DISCOUNT, MINIMUM_CREDITS, PALINDROME_MULTIPLIER, emptyMsg,
      wordCredit, pyIsAlpha, pyIsAlnum, pyToLower, max_def]

/-- C6: without a report override, `calculate` never returns less than 1.00:
the uniqueness-bonus clamp floors the running total at 1.00, the palindrome
rule can only double a value that is already at least 1.00, and the final
round-half-up preserves the bound. -/
theorem calc_ge_one_without_report (m : Message) : 1 ≤ calculate m none := by
  have hchain : handleChain handlerChain m 0 =
      palindromeProcess m (uniqueWordBonusProcess m (lengthPenaltyProcess m
        (thirdVowelsProcess m (wordLengthProcess m (characterCountProcess m
          (baseCostProcess m 0)))))) := rfl
  show 1 ≤ quantize2 (handleChain handlerChain m 0)
  apply quantize2_ge_one
  rw [hchain]
  exact palindromeProcess_ge_one m (uniqueWordBonus_ge_one m _)

/-- C7: with a report the result is exactly the report's credit cost rounded
half-up to 2 decimals, and it does not depend on the message at all (the
override branch returns before the rule chain is consulted). -/
theorem report_override_exact_and_text_independent (m₁ m₂ : Message) (r : Report) :
    calculate m₁ (some r) = quantize2 r.credit_cost ∧
    calculate m₁ (some r) = calculate m₂ (some r) :=
  ⟨rfl, rfl⟩

set_option maxRecDepth 40000 in
set_option maxHeartbeats 1000000 in
/-- C8: the rule chain reproduces the four literal end-to-end vectors with
no report: 2.80, 7.30, 18.70 and 3.75. -/
theorem calc_literal_vectors :
    calculate vec1 none = 28/10 ∧ calculate vec2 none = 73/10 ∧
    calculate vec3 none = 187/10 ∧ calculate vec4 none = 15/4 := by
  have h3len : vec3.text.length = 101 := by decide
  have h3tok : wordTokens vec3.text = [List.replicate 101 'x'] := by decide
  have h3v : ((every3 (vec3.text.drop 2)).filter isVowel).length = 0 := by decide
  have h3p : isPalindrome vec3.text = true := by decide
  refine ⟨?_, ?_, ?_, ?_⟩
  · norm_num +decide [calculate, handleChain, handlerChain, baseCostProcess,
      characterCountProcess, wordLengthProcess, thirdVowelsProcess,
      lengthPenaltyProcess, uniqueWordBonusProcess, palindromeProcess,
      wordTokens, pySplit, splitAux, every3, isVowel, isPalindrome,
      cleanedText, quantize2, BASE_COST, CHARACTER_CREDIT, SHORT_WORD_CREDIT,
      MEDIUM_WORD_CREDIT, LONG_WORD_CREDIT, VOWEL_CREDIT, LENGTH_PENALTY,
      UNIQUE_WORD_DISCOUNT, MINIMUM_CREDITS, PALINDROME_MULTIPLIER, vec1,
      wordCredit, pyIsAlpha, pyIsAlnum, pyToLower, max_def]
  · norm_num +decide [calculate, handleChain, handlerChain, baseCostProcess,
      characterCountProcess, wordLengthProcess, thirdVowelsProcess,
      lengthPenaltyProcess, uniqueWordBonusProcess, palindromeProcess,
      wordTokens, pySplit, splitAux, every3, isVowel, isPalindrome,
      cleanedText, quantize2, BASE_COST, CHARACTER_CREDIT, SHORT_WORD_CREDIT,
      MEDIUM_WORD_CREDIT, LONG_WORD_CREDIT, VOWEL_CREDIT, LENGTH_PENALTY,
      UNIQUE_WORD_DISCOUNT, MINIMUM_CREDITS, PALINDROME_MULTIPLIER, vec2,
      wordCredit, pyIsAlpha, pyIsAlnum, pyToLower, max_def]
  · norm_num [calculate, handleChain, handlerChain, baseCostProcess,
      characterCountProcess, wordLengthProcess, thirdVowelsProcess,
      lengthPenaltyProcess, uniqueWordBonusProcess, palindromeProcess,
      h3len, h3tok, h3v, h3p, quantize2, BASE_COST, CHARACTER_CREDIT,
      SHORT_WORD_CREDIT, MEDIUM_WORD_CREDIT, LONG_WORD_CREDIT, VOWEL_CREDIT,
      LENGTH_PENALTY, UNIQUE_WORD_DISCOUNT, MINIMUM_CREDITS,
      PALINDROME_MULTIPLIER, wordCredit, max_def]
  · norm_num +decide [calculate, handleChain, handlerChain, baseCostProcess,
      characterCountProcess, wordLengthProcess, thirdVowelsProcess,
      lengthPenaltyProcess, uniqueWordBonusProcess, palindromeProcess,
      wordTokens, pySplit, splitAux, every3, isVowel, isPalindrome,
      cleanedText, quantize2, BASE_COST, CHARACTER_CREDIT, SHORT_WORD_CREDIT,
      MEDIUM_WORD_CREDIT, LONG_WORD_CREDIT, VOWEL_CREDIT, LENGTH_PENALTY,
      UNIQUE_WORD_DISCOUNT, MINIMUM_CREDITS, PALINDROME_MULTIPLIER, vec4,
      wordCredit, pyIsAlpha, pyIsAlnum, pyToLower, max_def]

/-- A successful gather returns the per-id fetch values, in id-list order. -/
lemma gatherFetch_ok_map {src : Int → GetOutcome} {ids : List Int}
    {vs : List (Option Report)} (h : gatherFetch src ids = Except.ok vs) :
    vs = ids.map (okValue src) := by
  induction ids generalizing vs with
  | nil =>
    simp [gatherFetch] at h
    simp [← h]
  | cons rid rest ih =>
    rw [gatherFetch] at h
    cases hf : fetchOne src rid with
    | error e => rw [hf] at h; simp at h
    | ok r =>
      rw [hf] at h
      cases hg : gatherFetch src rest with
      | error e => rw [hg] at h; simp at h
      | ok rs =>
        rw [hg] at h
        simp only [Except.ok.injEq] at h
        subst h
        have hv : okValue src rid = r := by simp [okValue, hf]
        simp [List.map, hv, ih hg]

/-- When every per-id fetch is non-fatal, the gather succeeds with the
per-id values. -/
lemma gatherFetch_ok_of_forall {src : Int → GetOutcome} {ids : List Int}
    (h : ∀ rid ∈ ids, (fetchOne src rid).isOk = true) :
    gatherFetch src ids = Except.ok (ids.map (okValue src)) := by
  induction ids with
  | nil => rfl
  | cons rid rest ih =>
    have hhd := h rid (List.mem_cons_self rid rest)
    rw [gatherFetch]
    cases hf : fetchOne src rid with
    | error e => rw [hf] at hhd; simp [Except.isOk, Except.toBool] at hhd
    | ok r =>
      rw [ih (fun r hr => h r (List.mem_cons_of_mem _ hr))]
      have hv : okValue src rid = r := by simp [okValue, hf]
      simp [List.map, hv]

/-- `fetch_reports` always passes exactly the id list it was given to the
report source (the empty list short-circuits with no calls). -/
lemma fetch_reports_fst (src : Int → GetOutcome) (ids : List Int) :
    (fetch_reports src ids).1 = ids := by
  unfold fetch_reports
  split
  · next hemp => simp [List.isEmpty_iff.mp hemp]
  · rfl

/-- A successful `fetch_reports` run produces exactly the id-keyed map of
the resolved reports. -/
lemma fetch_reports_snd_ok {src : Int → GetOutcome} {ids : List Int}
    {rmap : List (Int × Report)}
    (h : (fetch_reports src ids).2 = Except.ok rmap) :
    rmap = resolvedMap src ids := by
  unfold fetch_reports at h
  split at h
  · next hemp =>
    simp at h
    simp [← h, List.isEmpty_iff.mp hemp, resolvedMap]
  · cases hg : gatherFetch src ids with
    | error e => rw [hg] at h; simp [Except.map] at h
    | ok vs =>
      rw [hg] at h
      simp only [Except.map, Except.ok.injEq] at h
      rw [← h, gatherFetch_ok_map hg]
      rfl

/-- When every per-id fetch is non-fatal, `fetch_reports` succeeds with the
resolved map. -/
lemma fetch_reports_snd_of_forall {src : Int → GetOutcome} {ids : List Int}
    (h : ∀ rid ∈ ids, (fetchOne src rid).isOk = true) :
    (fetch_reports src ids).2 = Except.ok (resolvedMap src ids) := by
  unfold fetch_reports
  split
  · next hemp => simp [List.isEmpty_iff.mp hemp, resolvedMap]
  · rw [gatherFetch_ok_of_forall h]
    rfl

/-- Every binding of the resolved map comes from a successful fetch of some
requested id, and is keyed by the returned report's own id field. -/
lemma mem_resolvedMap {src : Int → GetOutcome} {ids : List Int} {k : Int}
    {r : Report} (h : (k, r) ∈ resolvedMap src ids) :
    ∃ rid ∈ ids, okValue src rid = some r ∧ k = r.id := by
  simp only [resolvedMap, List.mem_map, List.mem_filterMap, id] at h
  obtain ⟨x, ⟨o, ⟨rid, hrid, ho⟩, hox⟩, hx⟩ := h
  subst hox
  have hk : x.id = k := congrArg Prod.fst hx
  have hr : x = r := congrArg Prod.snd hx
  subst hr
  exact ⟨rid, hrid, ho, hk.symm⟩

/-- A non-`None` per-id value means the source actually returned that
report for that id. -/
lemma okValue_eq_some {src : Int → GetOutcome} {rid : Int} {r : Report}
    (h : okValue src rid = some r) : src rid = GetOutcome.ok r := by
  unfold okValue fetchOne at h
  cases hs : src rid with
  | ok r' => rw [hs] at h; simp at h; rw [h]
  | apiError e =>
    rw [hs] at h
    rcases e with ⟨resp⟩
    rcases resp with _ | sc
    · simp at h
    · by_cases hsc : sc = 404 <;> simp [hsc] at h
  | parseError => rw [hs] at h; simp at h

/-- `dict.get` misses exactly when no binding carries the key. -/
lemma dictGet_eq_none_iff (d : List (Int × Report)) (k : Int) :
    dictGet d k = none ↔ ∀ p ∈ d, ¬ p.1 = k := by
  unfold dictGet
  rw [Option.map_eq_none', List.find?_eq_none]
  constructor
  · intro h p hp
    have := h p (List.mem_reverse.mpr hp)
    simpa using this
  · intro h p hp
    have := h p (List.mem_reverse.mp hp)
    simpa using this

/-- A `dict.get` hit is a binding of the dict. -/
lemma dictGet_eq_some_mem {d : List (Int × Report)} {k : Int} {r : Report}
    (h : dictGet d k = some r) : (k, r) ∈ d := by
  unfold dictGet at h
  obtain ⟨p, hp, hsnd⟩ := Option.map_eq_some'.mp h
  have h1 : p.1 = k := by simpa using List.find?_some hp
  have h2 : p ∈ d := List.mem_reverse.mp (List.mem_of_find?_eq_some hp)
  have : p = (k, r) := by
    rcases p with ⟨a, b⟩
    simp only at h1 hsnd
    rw [h1, hsnd]
  rw [← this]
  exact h2

/-- A successful aggregation builds exactly one entry per message, each from
the resolved map keyed by report ids. -/
lemma build_usage_snd_ok {src : Int → GetOutcome} {messages : List Message}
    {entries : List UsageEntry}
    (h : (build_usage src messages).2 = Except.ok entries) :
    entries = messages.map (fun m =>
      create_usage_entry m (lookupReport
        (resolvedMap src (messages.filterMap Message.report_id))
        m.report_id)) := by
  unfold build_usage at h
  simp only at h
  cases hf : (fetch_reports src (messages.filterMap Message.report_id)).2 with
  | error e => rw [hf] at h; simp [Except.map] at h
  | ok rmap =>
    rw [hf] at h
    simp only [Except.map, Except.ok.injEq] at h
    rw [← h, fetch_reports_snd_ok hf]

/-- When every referenced fetch is non-fatal the aggregation succeeds with
one entry per message. -/
lemma build_usage_snd_of_forall {src : Int → GetOutcome} {messages : List Message}
    (h : ∀ rid ∈ messages.filterMap Message.report_id,
      (fetchOne src rid).isOk = true) :
    (build_usage src messages).2 = Except.ok (messages.map (fun m =>
      create_usage_entry m (lookupReport
        (resolvedMap src (messages.filterMap Message.report_id))
        m.report_id))) := by
  unfold build_usage
  simp only
  rw [fetch_reports_snd_of_forall h]
  rfl

/-- C1 (counterexample): two messages referencing the same report id make
the aggregator issue two resolution calls for that id, refuting the claim
that exactly one call is issued per distinct referenced id. -/
theorem duplicate_id_two_calls_counterexample :
    (build_usage srcDup msgsDup).1 = [1, 1] ∧
    (msgsDup.filterMap Message.report_id).dedup = [1] ∧
    ¬ (build_usage srcDup msgsDup).1.length =
        (msgsDup.filterMap Message.report_id).dedup.length := by
  refine ⟨by decide, by decide, by decide⟩

/-- C1 (amended): the aggregator issues exactly one resolution call per
message that references a report id, in message order and with duplicates
retained; messages with no report id contribute no call, and in particular
no referenced ids means zero calls. -/
theorem one_call_per_referencing_message (src : Int → GetOutcome)
    (messages : List Message) :
    (build_usage src messages).1 = messages.filterMap Message.report_id := by
  unfold build_usage
  simp only
  exact fetch_reports_fst src (messages.filterMap Message.report_id)

/-- C3: at a report source whose failure carries no HTTP response, the
aggregation does raise and produce no usage list, but the exception is the
`AttributeError` from the tolerance check, not the original `APIError`
surfaced unchanged. -/
theorem conn_error_raises_attribute_error :
    (build_usage srcConn msgsConn).2 = Except.error PyErr.attributeError ∧
    ¬ (build_usage srcConn msgsConn).2 =
        Except.error (PyErr.apiError ⟨none⟩) := by
  constructor
  · rfl
  · intro h
    rw [show (build_usage srcConn msgsConn).2 =
        Except.error PyErr.attributeError from rfl] at h
    simp at h

/-- C4: when a referenced id resolves as not-found (a 404-bearing APIError)
and every referenced fetch is non-fatal, the aggregation succeeds, the id is
absent from the resolved mapping, and every message referencing it gets an
entry with no report name and rule-chain credits.  The source is assumed to
return reports under their own id (the Report Source contract). -/
theorem notfound_tolerated_and_excluded (src : Int → GetOutcome)
    (messages : List Message) (rid₀ : Int)
    (h_ok : ∀ rid ∈ messages.filterMap Message.report_id,
      (fetchOne src rid).isOk = true)
    (h_cons : ∀ i r, src i = GetOutcome.ok r → r.id = i)
    (h_nf : src rid₀ = GetOutcome.apiError ⟨some 404⟩) :
    ∃ rmap, (fetch_reports src (messages.filterMap Message.report_id)).2 =
        Except.ok rmap ∧
      dictGet rmap rid₀ = none ∧
      ∃ entries, (build_usage src messages).2 = Except.ok entries ∧
        entries.length = messages.length ∧
        ∀ (k : ℕ) (hk : k < messages.length) (hk' : k < entries.length),
          (messages.get ⟨k, hk⟩).report_id = some rid₀ →
            (entries.get ⟨k, hk'⟩).report_name = none ∧
            (entries.get ⟨k, hk'⟩).credits_used =
              calculate (messages.get ⟨k, hk⟩) none := by
  have hnone : dictGet
      (resolvedMap src (messages.filterMap Message.report_id)) rid₀ = none := by
    rw [dictGet_eq_none_iff]
    rintro ⟨a, b⟩ hp heq
    obtain ⟨rid, hmem, hok, hkid⟩ := mem_resolvedMap hp
    have hsrc := okValue_eq_some hok
    have hid : b.id = rid := h_cons rid b hsrc
    have : rid = rid₀ := by
      have : a = rid₀ := heq
      rw [← this, hkid, hid]
    rw [this, h_nf] at hsrc
    exact absurd hsrc (by simp)
  refine ⟨resolvedMap src (messages.filterMap Message.report_id),
    fetch_reports_snd_of_forall h_ok, hnone, _,
    build_usage_snd_of_forall h_ok, by rw [List.length_map], ?_⟩
  intro k hk hk' hrep
  have hget : (messages.map (fun m =>
      create_usage_entry m (lookupReport
        (resolvedMap src (messages.filterMap Message.report_id))
        m.report_id))).get ⟨k, hk'⟩ =
      create_usage_entry (messages.get ⟨k, hk⟩)
        (lookupReport (resolvedMap src (messages.filterMap Message.report_id))
          (messages.get ⟨k, hk⟩).report_id) := by
    simp [List.get_map]
  rw [hget, hrep, lookupReport, hnone]
  exact ⟨rfl, calculate_fix _ _⟩

/-- C4 (witness): id 1 resolves, id 2 is not found; the aggregation over two
messages referencing 1 and 2 succeeds, excludes id 2 from the mapping, and
the second message falls back to rule-chain credits with no report name. -/
theorem notfound_tolerated_witness :
    ∃ rmap, (fetch_reports srcNf (msgsNf.filterMap Message.report_id)).2 =
        Except.ok rmap ∧
      dictGet rmap 2 = none ∧
      ∃ entries, (build_usage srcNf msgsNf).2 = Except.ok entries ∧
        entries.length = msgsNf.length ∧
        ∀ (k : ℕ) (hk : k < msgsNf.length) (hk' : k < entries.length),
          (msgsNf.get ⟨k, hk⟩).report_id = some 2 →
            (entries.get ⟨k, hk'⟩).report_name = none ∧
            (entries.get ⟨k, hk'⟩).credits_used =
              calculate (msgsNf.get ⟨k, hk⟩) none := by
  apply notfound_tolerated_and_excluded srcNf msgsNf 2
  · decide
  · intro i r h
    simp only [srcNf] at h
    split at h
    · next hi =>
        injection h with h3
        rw [← h3, hi]
    · exact absurd h (by simp)
  · rfl

/-- C5: a successful aggregation returns exactly one entry per input
message, in input order (the entry at each position carries that message's
id), and the empty message list yields the empty usage list with zero
resolution calls. -/
theorem one_entry_per_message_in_order (src : Int → GetOutcome)
    (messages : List Message) :
    (∀ entries, (build_usage src messages).2 = Except.ok entries →
      entries.map UsageEntry.message_id = messages.map Message.id) ∧
    build_usage src [] = ([], Except.ok []) := by
  constructor
  · intro entries h
    rw [build_usage_snd_ok h, List.map_map]
    exact List.map_congr_left (fun m _ => rfl)
  · rfl

/-- C5 (witness): a one-message run succeeds, and its usage list carries
exactly that message's id. -/
theorem one_entry_per_message_witness :
    (build_usage srcOrd msgsOrd).2 = Except.ok entsOrd ∧
    entsOrd.map UsageEntry.message_id = msgsOrd.map Message.id := by
  refine ⟨rfl, ?_⟩
  exact (one_entry_per_message_in_order srcOrd msgsOrd).1 entsOrd rfl

/-- C9: the tolerance decision reads `original_error.response.status_code`
on the caught APIError: with no attached response the except branch itself
raises `AttributeError`, and the tolerated branch (returning `None`) is
reached exactly when the response is present with status 404. -/
theorem notfound_classification_via_response (src : Int → GetOutcome)
    (rid : Int) (e : OrigError) (h : src rid = GetOutcome.apiError e) :
    (e.response = none → fetchOne src rid = Except.error PyErr.attributeError) ∧
    (fetchOne src rid = Except.ok none ↔ e.response = some 404) := by
  constructor
  · intro hn
    simp [fetchOne, h, hn]
  · rcases e with ⟨resp⟩
    rcases resp with _ | sc
    · simp [fetchOne, h]
    · by_cases hsc : sc = 404 <;> simp [fetchOne, h, hsc]

/-- C9 (witness): a response-less APIError makes the classification itself
raise `AttributeError`. -/
theorem notfound_classification_witness :
    srcNoResp 3 = GetOutcome.apiError ⟨none⟩ ∧
    fetchOne srcNoResp 3 = Except.error PyErr.attributeError := by
  refine ⟨rfl, ?_⟩
  exact (notfound_classification_via_response srcNoResp 3 ⟨none⟩ rfl).1 rfl

/-- C10: the resolved mapping is keyed by the returned report's own id
field: in a successful run an entry carries a report name only if some
resolved report's id equals that message's report id (and then the credits
are that report's rounded cost); and when no returned report carries the
message's report id the message falls back to rule-chain credits with no
report name. -/
theorem override_keyed_by_returned_id (src : Int → GetOutcome)
    (messages : List Message) (entries : List UsageEntry)
    (h : (build_usage src messages).2 = Except.ok entries)
    (k : ℕ) (hk : k < messages.length) (hk' : k < entries.length) :
    (∀ nm, (entries.get ⟨k, hk'⟩).report_name = some nm →
      ∃ rid ∈ messages.filterMap Message.report_id, ∃ r,
        src rid = GetOutcome.ok r ∧
        some r.id = (messages.get ⟨k, hk⟩).report_id ∧ nm = r.name ∧
        (entries.get ⟨k, hk'⟩).credits_used = quantize2 r.credit_cost) ∧
    ((∀ rid ∈ messages.filterMap Message.report_id, ∀ r,
        src rid = GetOutcome.ok r →
        ¬ some r.id = (messages.get ⟨k, hk⟩).report_id) →
      (entries.get ⟨k, hk'⟩).report_name = none ∧
      (entries.get ⟨k, hk'⟩).credits_used =
        calculate (messages.get ⟨k, hk⟩) none) := by
  have he := build_usage_snd_ok h
  subst he
  have hget : (messages.map (fun m =>
      create_usage_entry m (lookupReport
        (resolvedMap src (messages.filterMap Message.report_id))
        m.report_id))).get ⟨k, hk'⟩ =
      create_usage_entry (messages.get ⟨k, hk⟩)
        (lookupReport (resolvedMap src (messages.filterMap Message.report_id))
          (messages.get ⟨k, hk⟩).report_id) := by
    simp [List.get_map]
  rw [hget]
  rcases hrep : (messages.get ⟨k, hk⟩).report_id with _ | rid₀
  · simp only [lookupReport]
    constructor
    · intro nm hnm
      simp [create_usage_entry] at hnm
    · intro _
      exact ⟨rfl, calculate_fix _ _⟩
  · simp only [lookupReport]
    cases hd : dictGet
        (resolvedMap src (messages.filterMap Message.report_id)) rid₀ with
    | none =>
      constructor
      · intro nm hnm
        simp [create_usage_entry] at hnm
      · intro _
        exact ⟨rfl, calculate_fix _ _⟩
    | some r =>
      obtain ⟨rid, hmem, hok, hkid⟩ := mem_resolvedMap (dictGet_eq_some_mem hd)
      have hsrc := okValue_eq_some hok
      constructor
      · intro nm hnm
        simp only [create_usage_entry, Option.map_some', Option.some.injEq]
          at hnm
        refine ⟨rid, hmem, r, hsrc, ?_, hnm.symm, ?_⟩
        · rw [← hkid]
        · show quantize2 (calculate (messages.get ⟨k, hk⟩) (some r)) = _
          rw [calculate_fix]
          rfl
      · intro hno
        exact absurd (by rw [← hkid]) (hno rid hmem r hsrc)

/-- C10 (witness): requesting id 5 returns a report whose own id is 99, so
the message referencing 5 receives no override: no report name and
rule-chain credits. -/
theorem override_keyed_witness :
    (build_usage srcMis msgsMis).2 = Except.ok entsMis ∧
    (entsMis.get ⟨0, by decide⟩).report_name = none ∧
    (entsMis.get ⟨0, by decide⟩).credits_used =
      calculate (msgsMis.get ⟨0, by decide⟩) none := by
  refine ⟨rfl, ?_⟩
  refine (override_keyed_by_returned_id srcMis msgsMis entsMis rfl 0
    (by decide) (by decide)).2 ?_
  intro rid hrid r hr
  have h5 : rid = 5 := by
    simpa [msgsMis] using hrid
  subst h5
  simp only [srcMis] at hr
  split at hr
  · injection hr with h3
    rw [← h3]
    decide
  · next hneq => exact absurd trivial hneq
